import Mathlib

/-!
Shallow embedding of `src/unused/sock.c` (facil.io user-land socket buffering
layer).  Machine integers are modelled as `Nat`/`Int`; the `uint8` generation
counter wraps with an explicit `% 256`.  External effects (the OS `write`,
`pread`, and custom rw-hook calls) are modelled as oracles indexed by call
count.  Locks are elided: the model is the sequential semantics of each
operation, which is what the claims quantify over.
-/

set_option maxHeartbeats 1000000

namespace Sock

/-- The errno values `sock.c` distinguishes; every other errno is `other`. -/
inductive Errno where
  | eagain | ewouldblock | eintr | enotconn
  | ebadf | erange | econnreset | other
deriving DecidableEq, Repr

/-- The transient errno set `EWOULDBLOCK/EAGAIN/EINTR/ENOTCONN` tested in
`sock_read` (line 752) and `sock_write_buffer_ext` (line 302). -/
def transientErr : Errno → Bool
  | .ewouldblock | .eagain | .eintr | .enotconn => true
  | _ => false

/-- The errno set `EWOULDBLOCK/EAGAIN/ENOTCONN` that makes `sock_flush` jump
to `finish` (lines 875, 885); `EINTR` is tested separately (`goto retry`). -/
def transientNoIntr : Errno → Bool
  | .ewouldblock | .eagain | .enotconn => true
  | _ => false

/-- The errno set `EAGAIN/EWOULDBLOCK/EINTR` that makes `sock_write_from_fd`
retry the `pread` (line 362). -/
def transientRead : Errno → Bool
  | .eagain | .ewouldblock | .eintr => true
  | _ => false

/-- Identity of an rw-hook vtable: the statically allocated
`sock_default_hooks` (line 177) or a user-installed custom vtable. -/
inductive Hooks where
  | dflt
  | custom (id : Nat)
deriving DecidableEq, Repr

/-- The `write_func` strategy stored in a packet's metadata (line 79):
`sock_write_buffer`, `sock_write_buffer_ext`, or `sock_write_from_fd`
(the disabled-sendfile alias `sock_sendfile_from_fd`, line 427, is the same
function). -/
inductive WriteKind where
  | wBuffer | wBufferExt | wFile
deriving DecidableEq, Repr

/-- The `free_func` stored in a packet's metadata (line 80):
`sock_packet_free_none` (line 93), `sock_free_buffer_ext` (line 308), or
`sock_close_from_fd` (line 324). -/
inductive FreeKind where
  | fNone | fBufferExt | fCloseFd
deriving DecidableEq, Repr

/-- A queued packet (`packet_s`, lines 77-84): its strategies, its logical
`buffer.len`, and (for file-backed packets) the `ext->offset` of
`sock_packet_file_data_s` (line 317). -/
structure Packet where
  wk : WriteKind
  fk : FreeKind
  len : Nat
  off : Nat := 0
deriving DecidableEq, Repr

/-- One slot of the descriptor table (`struct fd_data_s`, lines 186-205).
The spin lock is elided; `rw_hooks` is a pointer so `none` models `NULL`
(a freshly zeroed slot). -/
structure FdData where
  counter : Nat
  isOpen : Bool
  closePend : Bool
  err : Bool
  sent : Nat
  packet : List Packet
  rw_hooks : Option Hooks
deriving DecidableEq, Repr

/-- A zeroed `fd_data_s` slot, as produced by the `memset` in `clear_fd`'s
grow path (line 258). -/
def fdDataZero : FdData :=
  { counter := 0, isOpen := false, closePend := false, err := false,
    sent := 0, packet := [], rw_hooks := none }

/-- The global `sock_data_s` descriptor table (lines 207-210): a capacity and
the indexed records.  Reads beyond `capacity` never occur on the paths the
claims exercise (the C code would be out-of-bounds there). -/
structure SockState where
  capacity : Nat
  fds : Nat → FdData

/-- `sock_uuid2fd` from sock.h: the uuid with the low generation byte
stripped (`uuid >> 8`). -/
def sock_uuid2fd (uuid : Nat) : Nat := uuid / 256

/-- `fd2uuid` (line 212): `(fd << 8) | counter`. -/
def fd2uuid (st : SockState) (fd : Nat) : Nat :=
  fd * 256 + (st.fds fd).counter

/-- `validate_uuid` (lines 218-223). -/
def validate_uuid (st : SockState) (uuid : Nat) : Int :=
  if st.capacity ≤ sock_uuid2fd uuid ∨
     (st.fds (sock_uuid2fd uuid)).counter ≠ uuid % 256 then -1 else 0

/-- The record written by `clear_fd`'s designated initializer (lines
239-242): generation bumped (uint8 wrap), requested open flag, default
hooks, everything else zeroed.  The old queue is detached (freed to the
pool) and `on_clear` runs on the old hooks. -/
def clearRec (old : FdData) (is_open : Bool) : FdData :=
  { counter := (old.counter + 1) % 256, isOpen := is_open,
    closePend := false, err := false, sent := 0, packet := [],
    rw_hooks := some .dflt }

/-- `clear_fd` (lines 232-266).  `reallocOk` models whether the `realloc` in
the `reinitialize` path succeeds; on failure the table is unchanged and `-1`
is returned. -/
def clear_fd (st : SockState) (fd : Nat) (is_open : Bool) (reallocOk : Bool) :
    Int × SockState :=
  if fd < st.capacity then
    (0, ⟨st.capacity, Function.update st.fds fd (clearRec (st.fds fd) is_open)⟩)
  else if reallocOk then
    -- grow to `fd << 1`, zero the new region (lines 255-261), then clear
    let grown : Nat → FdData := fun i => if i < st.capacity then st.fds i else fdDataZero
    (0, ⟨fd * 2, Function.update grown fd (clearRec (grown fd) is_open)⟩)
  else (-1, st)

/-- `clear_fd` iterated `k` times with `is_open = 1` (every `listen`,
`accept`, `connect`, `open` reinitialization of the same slot). -/
def clearIter (st : SockState) (fd : Nat) : Nat → SockState
  | 0 => st
  | k + 1 => (clear_fd (clearIter st fd k) fd true true).2

/-! ## Hook oracles

The results of the external calls made by the core — `hooks->write`,
`pread`, and a custom `hooks->flush` — are supplied by oracles indexed by
how many calls of that kind have happened, the standard way to embed an
environment.  Each oracle yields the call's return value and, when it is
negative, the errno it sets. -/

structure Oracles where
  writeO : Nat → Int × Errno
  preadO : Nat → Int × Errno
  flushO : Nat → Int × Errno

/-- Call counters plus the current value of `errno`. -/
structure Env where
  nWrite : Nat
  nPread : Nat
  nFlush : Nat
  errno : Errno
deriving DecidableEq, Repr

def env0 : Env := { nWrite := 0, nPread := 0, nFlush := 0, errno := .other }

/-- One `hooks->write` call: consumes the next write-oracle entry and sets
errno when the result is negative. -/
def hookWrite (o : Oracles) (env : Env) : Int × Env :=
  let r := (o.writeO env.nWrite).1
  (r, { env with nWrite := env.nWrite + 1,
                 errno := if r < 0 then (o.writeO env.nWrite).2 else env.errno })

/-- One `pread` call. -/
def hookPread (o : Oracles) (env : Env) : Int × Env :=
  let r := (o.preadO env.nPread).1
  (r, { env with nPread := env.nPread + 1,
                 errno := if r < 0 then (o.preadO env.nPread).2 else env.errno })

/-- One custom `hooks->flush` call. -/
def hookFlush (o : Oracles) (env : Env) : Int × Env :=
  let r := (o.flushO env.nFlush).1
  (r, { env with nFlush := env.nFlush + 1,
                 errno := if r < 0 then (o.flushO env.nFlush).2 else env.errno })

/-! ## Write strategies -/

/-- `sock_packet_rotate` (lines 225-230): pop the queue head (the
freed packet returns to the pool, tracked by the pool model below) and reset
the `sent` cursor. -/
def sock_packet_rotate (rec : FdData) : FdData :=
  { rec with packet := rec.packet.tail, sent := 0 }

/-- `sock_write_buffer` (lines 278-289): emit `buf + sent, len - sent`
through the hook; on a positive result advance `sent` and rotate on
completion.  Note: a non-positive hook result is returned *unchanged* —
unlike `sock_write_buffer_ext`, no errno translation is performed. -/
def sock_write_buffer (o : Oracles) (rec : FdData) (env : Env) :
    Int × FdData × Env :=
  match rec.packet with
  | [] => (-1, rec, env)  -- unreachable: sock_flush only dispatches on a non-empty queue
  | p :: _ =>
    let (written, env') := hookWrite o env
    if written > 0 then
      if rec.sent + written.toNat = p.len then
        (written, sock_packet_rotate rec, env')
      else
        (written, { rec with sent := rec.sent + written.toNat }, env')
    else (written, rec, env')

/-- `sock_write_buffer_ext` (lines 291-306): like `sock_write_buffer` but a
negative hook result with a transient errno is translated to `0`, and any
other non-positive result to `-1`. -/
def sock_write_buffer_ext (o : Oracles) (rec : FdData) (env : Env) :
    Int × FdData × Env :=
  match rec.packet with
  | [] => (-1, rec, env)  -- unreachable, as above
  | p :: _ =>
    let (written, env') := hookWrite o env
    if written > 0 then
      if rec.sent + written.toNat = p.len then
        (written, sock_packet_rotate rec, env')
      else
        (written, { rec with sent := rec.sent + written.toNat }, env')
    else if written < 0 ∧ transientErr env'.errno then (0, rec, env')
    else (-1, rec, env')

/-!
`sock_write_from_fd` (lines 331-365) is split into the two labels of its
`do { ... retry: ... } while`-with-`goto` control flow.  `chunk` is the
compile-time tunable `BUFFER_FILE_READ_SIZE` (defined in the missing
`sock.h`); `fuel` bounds the loop for totality, `none` meaning fuel ran
out.  `count` carries the byte count written by the previous iteration
(0 on entry).
-/
mutual

/-- The head of `sock_write_from_fd`'s do-while body:
`fdinfo(fd).sent += count; packet->buffer.len -= count;` then fall into
the `retry:` label. -/
def wffBody (o : Oracles) (chunk : Nat) :
    Nat → Nat → FdData → Env → Option (Int × FdData × Env)
  | 0, _, _, _ => none
  | fuel + 1, count, rec, env =>
    match rec.packet with
    | [] => some (-1, rec, env)  -- unreachable guard
    | p :: tl =>
      let rec1 : FdData :=
        { rec with sent := rec.sent + count,
                   packet := ({ p with len := p.len - count }) :: tl }
      wffRetry o chunk fuel rec1 env

/-- The `retry:` label of `sock_write_from_fd`: `pread` the next chunk, on
success `hooks->write` it and either continue the do-while, or take the
post-loop epilogue; on `pread <= 0` take `read_error` (lines 357-364). -/
def wffRetry (o : Oracles) (chunk : Nat) :
    Nat → FdData → Env → Option (Int × FdData × Env)
  | 0, _, _ => none
  | fuel + 1, rec, env =>
    match rec.packet with
    | [] => some (-1, rec, env)  -- unreachable guard
    | p :: tl =>
      let (cnt, env1) := hookPread o env
      if cnt ≤ 0 then
        if cnt = 0 then some (1, sock_packet_rotate rec, env1)
        else if transientRead env1.errno then wffRetry o chunk fuel rec env1
        else some (-1, rec, env1)
      else
        let (written, env2) := hookWrite o env1
        if written = (chunk : Int) ∧ p.len ≠ 0 then
          wffBody o chunk fuel written.toNat rec env2
        else if written < 0 then some (-1, rec, env2)
        else
          -- post-loop epilogue: `sent += count; len -= count;` (lines 349-355)
          let rec2 : FdData :=
            { rec with sent := rec.sent + written.toNat,
                       packet := ({ p with len := p.len - written.toNat }) :: tl }
          if p.len - written.toNat = 0 then
            some (1, sock_packet_rotate rec2, env2)
          else some (written, rec2, env2)

end

/-- `sock_write_from_fd`'s entry point: the do-while body with `count = 0`. -/
def sock_write_from_fd (o : Oracles) (chunk : Nat) (fuel : Nat)
    (rec : FdData) (env : Env) : Option (Int × FdData × Env) :=
  wffBody o chunk fuel 0 rec env

/-! ## Flush engine -/

/-- Dispatch on the head packet's `metadata.write_func`
(`fdinfo(fd).packet->metadata.write_func(fd, fdinfo(fd).packet)`,
line 879). -/
def dispatchWrite (o : Oracles) (chunk : Nat) (fuel : Nat) (p : Packet)
    (rec : FdData) (env : Env) : Option (Int × FdData × Env) :=
  match p.wk with
  | .wBuffer => some (sock_write_buffer o rec env)
  | .wBufferExt => some (sock_write_buffer_ext o rec env)
  | .wFile => sock_write_from_fd o chunk fuel rec env

/-- The `while ((ret = fdinfo(fd).rw_hooks->flush(fd)) > 0);` loop of
`sock_flush` (line 870).  The default hook's flush (lines 173-175) returns
0 immediately; a custom hook's results come from the oracle. -/
def flushHookLoop (o : Oracles) (isDflt : Bool) :
    Nat → Env → Option (Int × Env)
  | 0, _ => none
  | fuel + 1, env =>
    if isDflt then some (0, env)
    else
      let (r, env') := hookFlush o env
      if r > 0 then flushHookLoop o isDflt fuel env' else some (r, env')

/-- The `while (fdinfo(fd).packet && (ret = ...write_func(...)) > 0);` loop
of `sock_flush` (lines 879-881), carrying the last `ret`. -/
def flushWriteLoop (o : Oracles) (chunk : Nat) :
    Nat → Int → FdData → Env → Option (Int × FdData × Env)
  | 0, _, _, _ => none
  | fuel + 1, ret, rec, env =>
    match rec.packet with
    | [] => some (ret, rec, env)
    | p :: _ =>
      match dispatchWrite o chunk fuel p rec env with
      | none => none
      | some (r, rec', env') =>
        if r > 0 then flushWriteLoop o chunk fuel r rec' env'
        else some (r, rec', env')

/-- `sock_force_close` (lines 932-938): `shutdown` + `close` the raw fd
(no table effect), then `clear_fd(fd, 0)` — unless validation fails. -/
def sock_force_close (st : SockState) (uuid : Nat) : SockState :=
  if validate_uuid st uuid ≠ 0 then st
  else (clear_fd st (sock_uuid2fd uuid) false true).2

/-- The `retry:` label of `sock_flush` (lines 869-895): drive the hook's
flush, then the head packet's write strategy, translating `-1` results via
errno (`EINTR` → retry, `EWOULDBLOCK/EAGAIN/ENOTCONN` → finish with 0,
anything else → `sock_force_close` and `-1`). -/
def sockFlushRetry (o : Oracles) (chunk : Nat) (uuid : Nat) :
    Nat → SockState → Env → Option (Int × SockState × Env)
  | 0, _, _ => none
  | fuel + 1, st, env =>
    let fd := sock_uuid2fd uuid
    let rec0 := st.fds fd
    match flushHookLoop o (rec0.rw_hooks = some .dflt) (fuel + 1) env with
    | none => none
    | some (ret, env1) =>
      if ret = -1 then
        if env1.errno = .eintr then sockFlushRetry o chunk uuid fuel st env1
        else if transientNoIntr env1.errno then some (0, st, env1)
        else some (-1, sock_force_close st uuid, env1)
      else
        match flushWriteLoop o chunk (fuel + 1) ret rec0 env1 with
        | none => none
        | some (ret2, rec2, env2) =>
          let st2 : SockState := ⟨st.capacity, Function.update st.fds fd rec2⟩
          if ret2 = -1 then
            if env2.errno = .eintr then sockFlushRetry o chunk uuid fuel st2 env2
            else if transientNoIntr env2.errno then some (0, st2, env2)
            else some (-1, sock_force_close st2 uuid, env2)
          else some (0, st2, env2)

/-- `sock_flush` (lines 863-896). -/
def sock_flush (o : Oracles) (chunk : Nat) (fuel : Nat) (st : SockState)
    (uuid : Nat) (env : Env) : Option (Int × SockState × Env) :=
  let fd := sock_uuid2fd uuid
  if validate_uuid st uuid ≠ 0 ∨ (st.fds fd).isOpen = false ∨
     (st.fds fd).packet = [] then some (-1, st, env)
  else sockFlushRetry o chunk uuid fuel st env

/-- `sock_close` (lines 921-926): on a valid open uuid, set the `close`
flag and call `sock_flush`.  Nothing in `sock_flush` reads that flag. -/
def sock_close (o : Oracles) (chunk : Nat) (fuel : Nat) (st : SockState)
    (uuid : Nat) (env : Env) : Option (SockState × Env) :=
  let fd := sock_uuid2fd uuid
  if validate_uuid st uuid ≠ 0 ∨ (st.fds fd).isOpen = false then some (st, env)
  else
    let st1 : SockState :=
      ⟨st.capacity, Function.update st.fds fd ({ st.fds fd with closePend := true })⟩
    match sock_flush o chunk fuel st1 uuid env with
    | none => none
    | some (_, st2, env2) => some (st2, env2)

/-- `sock_read` (lines 737-759).  `r` is the hook read's return value and
`e` the errno it sets when negative; `errno0` is the value of `errno`
before the call.  Returns (return value, errno afterwards, new state). -/
def sock_read (st : SockState) (uuid : Nat) (r : Int) (e : Errno)
    (errno0 : Errno) : Int × Errno × SockState :=
  let fd := sock_uuid2fd uuid
  if validate_uuid st uuid ≠ 0 ∨ (st.fds fd).isOpen = false then
    (-1, .ebadf, st)
  else
    let errno1 := if r < 0 then e else errno0
    if r > 0 then (r, errno1, st)
    else if r < 0 ∧ transientErr errno1 then (0, errno1, st)
    else
      -- `old_errno = errno; sock_force_close(uuid);
      --  errno = ret ? old_errno : ECONNRESET; return -1;`
      (-1, if r ≠ 0 then errno1 else .econnreset, sock_force_close st uuid)

/-! ## Enqueue (`sock_write2_fn`, lines 764-849) -/

/-- The options struct `sock_write_info_s` as far as the control flow reads
it.  `hasDealloc` is whether `options.dealloc` is non-NULL; the payload
pointer itself is irrelevant to control flow. -/
structure WriteInfo where
  uuid : Nat
  offset : Int
  length : Nat
  move : Bool
  is_fd : Bool
  urgent : Bool
  hasDealloc : Bool
deriving DecidableEq, Repr

/-- Which C function a disposal call lands in: the caller-supplied
`options.dealloc`, libc `free`, or `close` (via `sock_mock_close_fd` or the
`(void (*)(void *))close` cast). -/
inductive Callee where
  | custom | cFree | cClose
deriving DecidableEq, Repr

/-- The queue placement of `sock_write2_fn` (lines 831-840): walk `pos` to
the tail when not urgent; when urgent, skip past the head iff it exists and
`sent` is nonzero, then splice in front of `*pos`. -/
def writeInsert {α : Type} (urgent : Bool) (sent : Nat) (q : List α) (p : α) :
    List α :=
  if urgent = false then q ++ [p]
  else
    match q with
    | [] => [p]
    | h :: t => if sent ≠ 0 then h :: p :: t else p :: h :: t

/-- The disposal performed by the early-failure branch of `sock_write2_fn`
(lines 769-780) when the record is not open or the offset is negative:
nothing for a plain copy enqueue; otherwise one call, chosen by `move`
(not by `is_fd`): `dealloc ? dealloc : free` when `move`, else
`dealloc ? dealloc : sock_mock_close_fd`. -/
def earlyFailCalls (w : WriteInfo) : List Callee :=
  if w.move = false ∧ w.is_fd = false then []
  else if w.move then [if w.hasDealloc then .custom else .cFree]
  else [if w.hasDealloc then .custom else .cClose]

/-- The packet built by `sock_write2_fn` (lines 784-821): inline copy for a
small non-moved memory payload, external-memory packet otherwise (the big
non-moved payload is first copied to a fresh heap buffer, line 798), or a
file packet whose `free_func` closes the source only when `move` is set
(line 820).  `packetSize` is the tunable `BUFFER_PACKET_SIZE`. -/
def packetOf (packetSize : Nat) (w : WriteInfo) : Packet :=
  if w.is_fd = false then
    if w.move = false ∧ w.length ≤ packetSize then
      { wk := .wBuffer, fk := .fNone, len := w.length }
    else
      { wk := .wBufferExt, fk := .fBufferExt, len := w.length }
  else
    { wk := .wFile, fk := if w.move then .fCloseFd else .fNone,
      len := w.length, off := w.offset.toNat }

/-- The single disposal call `sock_packet_clear` (lines 95-100) makes when a
packet is freed: its current `free_func`.  `sock_free_buffer_ext` calls
`ext->dealloc(ext->to_free)` where `ext->dealloc = dealloc ? dealloc : free`
(line 807); `sock_close_from_fd` calls `ext->close(fd)` where
`ext->close = dealloc ? dealloc : close` (line 813).  The metadata is then
reset to `sock_packet_free_none`, so a packet is never disposed twice. -/
def freeKindCalls (fk : FreeKind) (hasDealloc : Bool) : List Callee :=
  match fk with
  | .fNone => []
  | .fBufferExt => [if hasDealloc then .custom else .cFree]
  | .fCloseFd => [if hasDealloc then .custom else .cClose]

/-- `sock_write2_fn` (lines 764-849) up to and including queue placement.
The final synchronous `sock_flush(options.uuid)` (line 842) is modelled by
`sock_flush` separately; none of the failure paths reach it.  The pool grab
(line 784) is modelled by the pool component below; here the built packet is
placed directly.  Result: (return value, errno when set, new table state,
disposal calls made during the enqueue itself). -/
def sock_write2_enqueue (packetSize : Nat) (st : SockState) (w : WriteInfo) :
    Int × Option Errno × SockState × List Callee :=
  let fd := sock_uuid2fd w.uuid
  -- `if (validate_uuid(options.uuid)) clear_fd(fd, 0);` (lines 766-767)
  let st1 := if validate_uuid st w.uuid ≠ 0 then (clear_fd st fd false true).2 else st
  if (st1.fds fd).isOpen = false ∨ w.offset < 0 then
    (-1, some (if w.offset < 0 then .erange else .ebadf), st1, earlyFailCalls w)
  else
    let pkt := packetOf packetSize w
    -- `place_packet_in_queue:` (lines 823-841)
    if validate_uuid st1 w.uuid ≠ 0 ∨ (st1.fds fd).isOpen = false then
      -- `error:` — `sock_packet_free(packet)` runs the packet's free_func
      (-1, some .ebadf, st1, freeKindCalls pkt.fk w.hasDealloc)
    else
      let rec1 := st1.fds fd
      let rec2 := { rec1 with packet := writeInsert w.urgent rec1.sent rec1.packet pkt }
      (0, none, ⟨st1.capacity, Function.update st1.fds fd rec2⟩, [])

/-- The three ways the lifetime of a grabbed packet ends, each running the
disposal logic exactly once.  `earlyFail` is the pre-grab failure branch
(lines 769-780); `placeError` is the `error:` label (lines 845-848);
`freedLater` covers every `sock_packet_free` of an enqueued packet — queue
rotation on completed emission (line 229), teardown by `clear_fd` during
`sock_force_close` (lines 244-249), and explicit clearing. -/
inductive LifePath where
  | earlyFail | placeError | freedLater
deriving DecidableEq, Repr

/-- All disposal calls made on a payload over the packet's lifetime, per
lifecycle path, as performed by `sock_write2_fn` together with
`sock_packet_clear`. -/
def lifecycleCalls (packetSize : Nat) (w : WriteInfo) : LifePath → List Callee
  | .earlyFail => earlyFailCalls w
  | .placeError => freeKindCalls (packetOf packetSize w).fk w.hasDealloc
  | .freedLater => freeKindCalls (packetOf packetSize w).fk w.hasDealloc

/-! ## Packet pool (lines 86-153) -/

/-- The global `packet_pool`: the free-list head pointer (`none` = NULL),
the `metadata.next` pointer of each fixed-array entry (by index), and the
lazy-init flag.  The process starts with everything zeroed. -/
structure PoolState where
  head : Option Nat
  nextOf : Nat → Option Nat
  init : Bool

def poolState0 : PoolState :=
  { head := none, nextOf := fun _ => none, init := false }

/-- Result of `sock_packet_try_grab`: a pool index, NULL (pool empty), or
the undefined behaviour of dereferencing the NULL `packet` at line 123. -/
inductive GrabResult where
  | ok (i : Nat)
  | empty
  | nullDeref
deriving DecidableEq, Repr

/-- `sock_packet_try_grab` (lines 114-142) over a pool of `n` entries
(`BUFFER_PACKET_POOL`).  When the free list is non-empty, pop its head.
When it is empty and `init` is already set, the code falls through to
`packet->metadata = ...` with `packet == NULL` (line 123) — there is no
path returning NULL.  The first-ever call takes the `init:` label (lines
127-141): it links entries 1..n-2 each to its successor, returns entry 0 —
and never stores anything into `packet_pool.next`. -/
def sock_packet_try_grab (n : Nat) (s : PoolState) : GrabResult × PoolState :=
  match s.head with
  | some p =>
    -- pop; then `packet->metadata = {.free_func = none}` clears its next
    (.ok p, { s with head := s.nextOf p,
                     nextOf := Function.update s.nextOf p none })
  | none =>
    if s.init = false then
      let linked : Nat → Option Nat := fun i =>
        if 1 ≤ i ∧ i + 1 ≤ n - 1 then some (i + 1) else s.nextOf i
      -- `packet = packet_pool.mem;` then its metadata (hence next) is cleared
      (.ok 0, { head := s.head, init := true,
                nextOf := Function.update linked 0 none })
    else (.nullDeref, s)

/-- The pool side of `sock_packet_free` (lines 102-112): after
`sock_packet_clear`, an in-pool packet is pushed onto the free list (a heap
packet is instead handed to `free`). -/
def sock_packet_free_pool (n : Nat) (s : PoolState) (i : Nat) : PoolState :=
  if i + 1 ≤ n then
    { s with head := some i, nextOf := Function.update s.nextOf i s.head }
  else s

/-- `sock_rw_hook_get` (lines 1006-1012): NULL when validation fails, the
record is not open, or the installed vtable is `&sock_default_hooks`;
otherwise the installed pointer. -/
def sock_rw_hook_get (st : SockState) (uuid : Nat) : Option Hooks :=
  let fd := sock_uuid2fd uuid
  if validate_uuid st uuid ≠ 0 ∨ (st.fds fd).isOpen = false ∨
     (st.fds fd).rw_hooks = some .dflt then none
  else (st.fds fd).rw_hooks

/-- `sock_isvalid` (lines 701-703). -/
def sock_isvalid (st : SockState) (uuid : Nat) : Bool :=
  decide (validate_uuid st uuid = 0) && (st.fds (sock_uuid2fd uuid)).isOpen

/-! ## Concrete fixtures used by witnesses and counterexamples -/

/-- A freshly initialized open record (what `clear_fd(fd, 1)` leaves for a
never-before-used slot). -/
def recOpenC : FdData :=
  { counter := 0, isOpen := true, closePend := false, err := false,
    sent := 0, packet := [], rw_hooks := some .dflt }

/-- A one-slot table whose fd 0 is open and idle. -/
def stC : SockState := ⟨1, fun _ => recOpenC⟩

/-- A one-slot table whose fd 0 is open with one 4-byte inline packet
queued. -/
def stOnePkt : SockState :=
  ⟨1, fun _ => { recOpenC with packet := [{ wk := .wBuffer, fk := .fNone, len := 4 }] }⟩

/-- Oracle: every hook write accepts 4 bytes; reads and flushes are inert. -/
def oAccept4 : Oracles :=
  { writeO := fun _ => (4, .other), preadO := fun _ => (0, .other),
    flushO := fun _ => (0, .other) }

/-- Oracle: every hook write fails with `EAGAIN` (kernel send buffer full —
the canonical transient condition). -/
def oEagain : Oracles :=
  { writeO := fun _ => (-1, .eagain), preadO := fun _ => (0, .other),
    flushO := fun _ => (0, .other) }

/-- Oracle: every hook write accepts 3 bytes. -/
def oAccept3 : Oracles :=
  { writeO := fun _ => (3, .other), preadO := fun _ => (0, .other),
    flushO := fun _ => (0, .other) }

/-! ## Helper lemmas -/

/-- `clear_fd` on an in-range fd keeps the capacity. -/
theorem clearIter_capacity (st : SockState) (fd : Nat) (k : Nat)
    (h : fd < st.capacity) : (clearIter st fd k).capacity = st.capacity := by
  induction k with
  | zero => rfl
  | succ k ih =>
    show (clear_fd (clearIter st fd k) fd true true).2.capacity = st.capacity
    rw [clear_fd, if_pos (ih ▸ h : fd < (clearIter st fd k).capacity)]
    exact ih

/-- After `k` reinitializations the slot's generation is the original one
advanced by `k`, modulo the `uint8` width. -/
theorem clearIter_counter (st : SockState) (fd : Nat) (k : Nat)
    (h : fd < st.capacity) (hc : (st.fds fd).counter < 256) :
    ((clearIter st fd k).fds fd).counter = ((st.fds fd).counter + k) % 256 := by
  induction k with
  | zero => show (st.fds fd).counter = _; omega
  | succ k ih =>
    show ((clear_fd (clearIter st fd k) fd true true).2.fds fd).counter = _
    rw [clear_fd, if_pos (clearIter_capacity st fd k h ▸ h :
          fd < (clearIter st fd k).capacity)]
    show ((Function.update (clearIter st fd k).fds fd _) fd).counter = _
    rw [Function.update_same]
    show (((clearIter st fd k).fds fd).counter + 1) % 256 = _
    omega

/-! ## Claims -/

/-- Claim C3: on an open record `sock_write2` appends at the tail when
`urgent = 0`; with `urgent = 1` it inserts at the head when the current head
has not begun emission (`sent = 0`), and immediately after the head when
`sent > 0` — so an urgent packet behind a half-sent head is queued after
that head and before all other packets. -/
theorem c3_urgent_placement (ps : Nat) (st : SockState) (w : WriteInfo)
    (hv : validate_uuid st w.uuid = 0)
    (ho : (st.fds (sock_uuid2fd w.uuid)).isOpen = true)
    (hoff : 0 ≤ w.offset) :
    ((sock_write2_enqueue ps st w).2.2.1.fds (sock_uuid2fd w.uuid)).packet =
      writeInsert w.urgent (st.fds (sock_uuid2fd w.uuid)).sent
        (st.fds (sock_uuid2fd w.uuid)).packet (packetOf ps w) ∧
    (∀ (q : List Packet) (p : Packet) (s : Nat),
      writeInsert false s q p = q ++ [p]) ∧
    (∀ (q : List Packet) (p : Packet),
      writeInsert true 0 q p = p :: q) ∧
    (∀ (h : Packet) (t : List Packet) (p : Packet) (s : Nat), 0 < s →
      writeInsert true s (h :: t) p = h :: p :: t) := by
  have e1 : ¬ validate_uuid st w.uuid ≠ 0 := by simp [hv]
  have e2 : ¬ ((st.fds (sock_uuid2fd w.uuid)).isOpen = false ∨ w.offset < 0) := by
    push_neg
    exact ⟨by simp [ho], by omega⟩
  have e3 : ¬ (validate_uuid st w.uuid ≠ 0 ∨
      (st.fds (sock_uuid2fd w.uuid)).isOpen = false) := by
    simp [hv, ho]
  refine ⟨?_, ?_, ?_, ?_⟩
  · simp only [sock_write2_enqueue]
    rw [if_neg e1, if_neg e2, if_neg e3]
    simp [Function.update_same]
  · intro q p s; simp [writeInsert]
  · intro q p; cases q <;> simp [writeInsert]
  · intro h t p s hs; simp [writeInsert, hs.ne']

/-- Claim C3 witness: a concrete urgent insert behind a half-sent head. -/
theorem c3_witness :
    writeInsert true 2
      [({ wk := .wBuffer, fk := .fNone, len := 4 } : Packet),
       { wk := .wBuffer, fk := .fNone, len := 7 }]
      ({ wk := .wBuffer, fk := .fNone, len := 9 } : Packet) =
      [{ wk := .wBuffer, fk := .fNone, len := 4 },
       { wk := .wBuffer, fk := .fNone, len := 9 },
       { wk := .wBuffer, fk := .fNone, len := 7 }] :=
  (c3_urgent_placement 64 stC
      { uuid := 0, offset := 0, length := 1, move := false, is_fd := false,
        urgent := true, hasDealloc := false }
      (by decide) (by decide) (by decide)).2.2.2
    { wk := .wBuffer, fk := .fNone, len := 4 }
    [{ wk := .wBuffer, fk := .fNone, len := 7 }]
    { wk := .wBuffer, fk := .fNone, len := 9 } 2 (by decide)

/-- Claim C10: `sock_rw_hook_get` returns a non-NULL pointer exactly when
the uuid validates, the record is open, and the installed vtable is not the
default one. -/
theorem c10_hook_get_iff (st : SockState) (uuid : Nat) (h : Hooks) :
    sock_rw_hook_get st uuid = some h ↔
      validate_uuid st uuid = 0 ∧
      (st.fds (sock_uuid2fd uuid)).isOpen = true ∧
      (st.fds (sock_uuid2fd uuid)).rw_hooks = some h ∧ h ≠ .dflt := by
  unfold sock_rw_hook_get
  by_cases hc : validate_uuid st uuid ≠ 0 ∨
      (st.fds (sock_uuid2fd uuid)).isOpen = false ∨
      (st.fds (sock_uuid2fd uuid)).rw_hooks = some .dflt
  · rw [if_pos hc]
    constructor
    · intro hk; exact Option.noConfusion hk
    · rintro ⟨h1, h2, h3, h4⟩
      rcases hc with hc | hc | hc
      · exact absurd h1 hc
      · rw [h2] at hc; exact Bool.noConfusion hc
      · rw [h3] at hc; exact absurd (Option.some.inj hc) h4
  · rw [if_neg hc]
    push_neg at hc
    obtain ⟨h1, h2, h3⟩ := hc
    constructor
    · intro hk
      refine ⟨h1, ?_, hk, ?_⟩
      · cases hop : (st.fds (sock_uuid2fd uuid)).isOpen
        · exact (h2 hop).elim
        · rfl
      · intro hd; rw [hd] at hk; exact h3 hk
    · rintro ⟨_, _, hk, _⟩; exact hk

/-- Claim C8: `sock_read` on a valid open uuid passes a positive hook
result through unchanged; a negative result with transient errno
(`EAGAIN/EWOULDBLOCK/EINTR/ENOTCONN`) yields 0; any other error
force-closes and returns −1 with the hook's errno preserved; a hook EOF
(result 0) force-closes and returns −1 with errno `ECONNRESET`. -/
theorem c8_read_errno_translation (st : SockState) (uuid : Nat) (r : Int)
    (e errno0 : Errno)
    (hv : validate_uuid st uuid = 0)
    (ho : (st.fds (sock_uuid2fd uuid)).isOpen = true) :
    (0 < r → sock_read st uuid r e errno0 = (r, errno0, st)) ∧
    (r < 0 → transientErr e = true → sock_read st uuid r e errno0 = (0, e, st)) ∧
    (r < 0 → transientErr e = false →
      sock_read st uuid r e errno0 = (-1, e, sock_force_close st uuid)) ∧
    (r = 0 → sock_read st uuid r e errno0 =
      (-1, .econnreset, sock_force_close st uuid)) := by
  have hcond : ¬ (validate_uuid st uuid ≠ 0 ∨
      (st.fds (sock_uuid2fd uuid)).isOpen = false) := by simp [hv, ho]
  refine ⟨?_, ?_, ?_, ?_⟩
  · intro hr
    simp only [sock_read]
    rw [if_neg hcond, if_neg (by omega : ¬ r < 0), if_pos hr]
  · intro hr ht
    simp only [sock_read]
    rw [if_neg hcond, if_pos hr, if_neg (by omega : ¬ 0 < r),
      if_pos (by exact ⟨hr, by simp [ht]⟩)]
  · intro hr ht
    simp only [sock_read]
    rw [if_neg hcond, if_pos hr, if_neg (by omega : ¬ 0 < r),
      if_neg (by simp [ht]), if_pos (by omega : r ≠ 0)]
  · intro hr
    subst hr
    simp only [sock_read]
    rw [if_neg hcond]
    norm_num

/-- Claim C8 witness: the transient and EOF cases at a concrete state. -/
theorem c8_witness :
    sock_read stC 0 (-1) .eagain .other = (0, .eagain, stC) ∧
    sock_read stC 0 0 .other .other =
      (-1, .econnreset, sock_force_close stC 0) :=
  ⟨(c8_read_errno_translation stC 0 (-1) .eagain .other (by decide)
      (by decide)).2.1 (by decide) (by decide),
   (c8_read_errno_translation stC 0 0 .other .other (by decide)
      (by decide)).2.2.2 rfl⟩

/-- Claim C7: whenever `sock_write_from_fd` reaches its `pread` and the
source returns 0 (EOF) — regardless of how many bytes of the packet's
`length` are still outstanding — the packet is treated as complete: the
queue head is rotated (`sent` reset, head popped) and the positive value 1
is returned. -/
theorem c7_eof_rotates_and_completes (o : Oracles) (chunk fuel : Nat)
    (rec : FdData) (env : Env) (p : Packet) (tl : List Packet)
    (hq : rec.packet = p :: tl)
    (hpread : (o.preadO env.nPread).1 = 0) :
    sock_write_from_fd o chunk (fuel + 2) rec env =
      some (1, { rec with packet := tl, sent := 0 },
            { env with nPread := env.nPread + 1 }) := by
  obtain ⟨c, op, cp, er, s, q, hk⟩ := rec
  simp only at hq
  subst hq
  show wffBody o chunk (fuel + 1 + 1) 0 _ env = _
  rw [wffBody]
  simp only [Nat.add_zero, Nat.sub_zero]
  show wffRetry o chunk (fuel + 1) _ env = _
  rw [wffRetry]
  simp only [hookPread, hpread]
  norm_num [sock_packet_rotate]

/-- Claim C7 witness: a file packet with 10 outstanding bytes whose source
is already at EOF completes with return value 1 and a rotated queue. -/
theorem c7_witness :
    sock_write_from_fd oAccept4 16384 2
      ({ recOpenC with packet := [{ wk := .wFile, fk := .fCloseFd, len := 10 }] }) env0 =
      some (1, { recOpenC with packet := [], sent := 0 },
            { env0 with nPread := 1 }) :=
  c7_eof_rotates_and_completes oAccept4 16384 0
    ({ recOpenC with packet := [{ wk := .wFile, fk := .fCloseFd, len := 10 }] })
    env0 { wk := .wFile, fk := .fCloseFd, len := 10 } [] rfl rfl

/-- Claim C5 counterexample: the claim says the inline-memory strategy
returns 0 when the hook's write reports a transient condition.  With the
hook failing with `EAGAIN` on a 4-byte inline packet, `sock_write_buffer`
returns the hook's raw −1 (lines 282-288 perform no errno translation —
contrast `sock_write_buffer_ext`, lines 302-304), refuting the claimed
return value 0. -/
theorem c5_counterexample :
    (sock_write_buffer oEagain (stOnePkt.fds 0) env0).1 = -1 ∧
    ((-1 : Int) = 0 → False) := by
  constructor
  · decide
  · decide

/-- Claim C5, amended: `sock_write_buffer` returns the hook's write result
unchanged.  On any non-positive result — including a transient −1 — the
record (`sent` and the queue) is untouched and the hook's value, not 0, is
returned, with errno as the hook left it; on a positive result the byte
count is returned, `sent` advances, and the head is rotated exactly on
completion.  (The transient-to-0 translation the spec describes lives in
`sock_write_buffer_ext` and, effectively, in `sock_flush`'s errno check.) -/
theorem c5_inline_write_passthrough (o : Oracles) (rec : FdData) (env : Env)
    (p : Packet) (tl : List Packet) (hq : rec.packet = p :: tl) :
    ((o.writeO env.nWrite).1 ≤ 0 →
      sock_write_buffer o rec env =
        ((o.writeO env.nWrite).1, rec, (hookWrite o env).2)) ∧
    (0 < (o.writeO env.nWrite).1 →
      sock_write_buffer o rec env =
        ((o.writeO env.nWrite).1,
         if rec.sent + (o.writeO env.nWrite).1.toNat = p.len
         then sock_packet_rotate rec
         else { rec with sent := rec.sent + (o.writeO env.nWrite).1.toNat },
         (hookWrite o env).2)) := by
  constructor
  · intro hw
    simp only [sock_write_buffer, hq, hookWrite]
    rw [if_neg (by omega : ¬ 0 < (o.writeO env.nWrite).1)]
  · intro hw
    simp only [sock_write_buffer, hq, hookWrite]
    rw [if_pos hw]
    split <;> rfl

/-- Claim C5 witness: a hook write of 3 bytes against a 4-byte packet
returns 3 and advances `sent` without rotating. -/
theorem c5_witness :
    sock_write_buffer oAccept3 (stOnePkt.fds 0) env0 =
      (3, { stOnePkt.fds 0 with sent := 3 }, (hookWrite oAccept3 env0).2) := by
  have h := (c5_inline_write_passthrough oAccept3 (stOnePkt.fds 0) env0
      { wk := .wBuffer, fk := .fNone, len := 4 } [] rfl).2 (by decide)
  rw [h]
  decide

/-- Claim C6 (code bug): on the first-ever grab (pool of 8 entries shown;
`BUFFER_PACKET_POOL` is a tunable of the missing `sock.h`), entry 0 is
indeed returned and the lazy-init loop links entries 1,2,...,n−2 each to
its successor — but `packet_pool.next` is never pointed at entry 1, so the
free list stays NULL.  The second grab therefore finds `packet == NULL`
with `init` set and falls through to the NULL dereference at line 123,
instead of serving entry 1 as the claim (and the dead linking loop's
evident intent) requires. -/
theorem c6_second_grab_null_deref :
    (sock_packet_try_grab 8 poolState0).1 = .ok 0 ∧
    ((sock_packet_try_grab 8 poolState0).2).init = true ∧
    ((sock_packet_try_grab 8 poolState0).2).nextOf 1 = some 2 ∧
    ((sock_packet_try_grab 8 poolState0).2).nextOf 6 = some 7 ∧
    ((sock_packet_try_grab 8 poolState0).2).head = none ∧
    (sock_packet_try_grab 8 ((sock_packet_try_grab 8 poolState0).2)).1 =
      .nullDeref := by
  refine ⟨rfl, rfl, ?_, ?_, rfl, rfl⟩ <;> decide

/-- Claim C4 (code bug): a record whose `close` flag is set (by
`sock_close`) and whose queue is fully drained by the flush inside
`sock_close` is left open with its generation untouched: nothing in
`sock_flush` (lines 863-896) reads the `close` flag or invokes
`sock_force_close` on a drained queue, although `sock_flush`'s own comment
(lines 853-855) says it "closes the underlying fd once it's marked for
closure (and all the data was sent)".  Concretely: fd 0, one 4-byte inline
packet, hook write accepting all 4 bytes — after `sock_close` the queue is
empty, `close = 1`, yet `open = 1` and the generation is still 0. -/
theorem c4_flush_ignores_close_pending :
    (sock_close oAccept4 16384 4 stOnePkt 0 env0).map
        (fun res => ((res.1.fds 0).isOpen, (res.1.fds 0).closePend,
                     (res.1.fds 0).packet, (res.1.fds 0).counter)) =
      some (true, true, [], 0) := by
  decide

/-- A file enqueue (`is_fd = 1`) that does not move ownership
(`move = 0`). -/
def wFileNoMove : WriteInfo :=
  { uuid := 0, offset := 0, length := 5, move := false, is_fd := true,
    urgent := false, hasDealloc := false }

/-- Claim C2 counterexample: the claim includes `is_fd = 1` enqueues and
demands the payload's dealloc (defaulting to `close`) run exactly once on
every lifecycle path.  For a file enqueue with `move = 0` that is placed
and later freed (successful emission, or teardown by `clear_fd`), the
packet's `free_func` is `sock_packet_free_none` (line 820 selects
`sock_close_from_fd` only when `options.move` is set), so zero disposal
calls are made — not one.  (Yet the very same enqueue failing early
validation *does* close the fd, lines 776-778.) -/
theorem c2_counterexample :
    lifecycleCalls 64 wFileNoMove .freedLater = [] ∧
    lifecycleCalls 64 wFileNoMove .earlyFail = [.cClose] := by
  constructor <;> decide

/-- Claim C2, amended: for every enqueue with `move = 1`, exactly one
disposal call is made on the payload over the packet's lifetime on every
path — the caller's dealloc when supplied, otherwise `free` for memory
payloads; for file payloads the default is `close` on the packet-free
paths but `free` on the early validation-failure path (lines 774-775
select the default by `move`, not by `is_fd`).  For `is_fd = 1` with
`move = 0`, the source fd is disposed exactly once if the enqueue fails
early validation (default `close`), and never on any later path. -/
theorem c2_moved_payload_dealloc_once (ps : Nat) (w : WriteInfo)
    (path : LifePath) :
    (w.move = true →
      lifecycleCalls ps w path =
        [if w.hasDealloc then .custom
         else if w.is_fd = false then .cFree
         else if path = .earlyFail then .cFree else .cClose] ∧
      (lifecycleCalls ps w path).length = 1) ∧
    (w.move = false → w.is_fd = true →
      lifecycleCalls ps w path =
        if path = .earlyFail then [if w.hasDealloc then .custom else .cClose]
        else []) := by
  obtain ⟨u, off, len, mv, isfd, urg, hd⟩ := w
  cases path <;> cases mv <;> cases isfd <;> cases hd <;>
    simp [lifecycleCalls, earlyFailCalls, freeKindCalls, packetOf]

/-- Claim C2 witness: a moved memory payload with no custom dealloc is
freed exactly once when its packet is eventually freed. -/
theorem c2_witness :
    lifecycleCalls 64
      { uuid := 0, offset := 0, length := 5, move := true, is_fd := false,
        urgent := false, hasDealloc := false } .freedLater = [.cFree] :=
  ((c2_moved_payload_dealloc_once 64
      { uuid := 0, offset := 0, length := 5, move := true, is_fd := false,
        urgent := false, hasDealloc := false } .freedLater).1 rfl).1

/-- Claim C9: `sock_write2` called with a uuid that fails validation while
its fd index is inside the table clears the record at that index before
returning −1: the slot becomes the reinitialized record (generation bumped,
queue detached, default hooks, not open), every other slot and the capacity
are untouched (the returned table is a pointwise update), the disposal of a
moved payload still happens, errno is `EBADF` (or `ERANGE` for a negative
offset) — and the slot's previous occupant's own handle no longer
validates. -/
theorem c9_write2_invalid_uuid_clears_slot (ps : Nat) (st : SockState)
    (w : WriteInfo)
    (hv : validate_uuid st w.uuid ≠ 0)
    (hfd : sock_uuid2fd w.uuid < st.capacity)
    (hctr : (st.fds (sock_uuid2fd w.uuid)).counter < 256) :
    sock_write2_enqueue ps st w =
      (-1, some (if w.offset < 0 then .erange else .ebadf),
       ⟨st.capacity, Function.update st.fds (sock_uuid2fd w.uuid)
          (clearRec (st.fds (sock_uuid2fd w.uuid)) false)⟩,
       earlyFailCalls w) ∧
    validate_uuid
      (⟨st.capacity, Function.update st.fds (sock_uuid2fd w.uuid)
          (clearRec (st.fds (sock_uuid2fd w.uuid)) false)⟩ : SockState)
      (fd2uuid st (sock_uuid2fd w.uuid)) = -1 := by
  have hfd2 : sock_uuid2fd (fd2uuid st (sock_uuid2fd w.uuid)) =
      sock_uuid2fd w.uuid := by
    simp only [sock_uuid2fd, fd2uuid] at hctr ⊢
    omega
  constructor
  · simp only [sock_write2_enqueue, clear_fd]
    rw [if_pos hv, if_pos hfd]
    simp [Function.update_same, clearRec]
  · unfold validate_uuid
    rw [if_pos]
    right
    rw [hfd2]
    show (Function.update st.fds (sock_uuid2fd w.uuid)
        (clearRec (st.fds (sock_uuid2fd w.uuid)) false)
        (sock_uuid2fd w.uuid)).counter ≠
      fd2uuid st (sock_uuid2fd w.uuid) % 256
    rw [Function.update_same]
    simp only [clearRec, fd2uuid]
    omega

/-- Claim C9 witness: uuid 3 (fd 0, generation 3) against a slot whose
generation is 0; the slot is cleared to generation 1 and the occupant's
handle (uuid 0) stops validating. -/
theorem c9_witness :
    sock_write2_enqueue 64 stC
      { uuid := 3, offset := 0, length := 5, move := true, is_fd := false,
        urgent := false, hasDealloc := false } =
      (-1, some .ebadf,
       ⟨stC.capacity, Function.update stC.fds 0 (clearRec (stC.fds 0) false)⟩,
       earlyFailCalls
         { uuid := 3, offset := 0, length := 5, move := true, is_fd := false,
           urgent := false, hasDealloc := false }) ∧
    validate_uuid
      (⟨stC.capacity, Function.update stC.fds 0 (clearRec (stC.fds 0) false)⟩ :
        SockState) (fd2uuid stC 0) = -1 :=
  c9_write2_invalid_uuid_clears_slot 64 stC
    { uuid := 3, offset := 0, length := 5, move := true, is_fd := false,
      urgent := false, hasDealloc := false }
    (by decide) (by decide) (by decide)

set_option maxRecDepth 8000 in
/-- Claim C1 counterexample: the generation counter is 8 bits wide, so it
wraps after exactly 256 reinitializations of the slot: the original handle
of fd 0 validates again — `sock_isvalid` even reports it open — although
256 `clear_fd`s have rebound the slot, refuting "after any number of
clear_fd reinitializations ... a stale uuid never validates against the
newer record". -/
theorem c1_stale_uuid_revalidates_after_256_clears :
    validate_uuid (clearIter stC 0 256) (fd2uuid stC 0) = 0 ∧
    sock_isvalid (clearIter stC 0 256) (fd2uuid stC 0) = true := by
  constructor <;> decide

/-- Claim C1, amended: a stale uuid never validates against the newer
record as long as the number of intervening reinitializations is not a
multiple of 256 (the `uint8` generation width); in particular, for fewer
than 256 reuses validation fails and subsequent operations (here
`sock_read`) fail with `EBADF`. -/
theorem c1_stale_uuid_invalid_before_wrap (st : SockState) (fd k : Nat)
    (hfd : fd < st.capacity) (hctr : (st.fds fd).counter < 256)
    (hk : k % 256 ≠ 0) :
    validate_uuid (clearIter st fd k) (fd2uuid st fd) = -1 ∧
    ∀ (r : Int) (e e0 : Errno),
      sock_read (clearIter st fd k) (fd2uuid st fd) r e e0 =
        (-1, Errno.ebadf, clearIter st fd k) := by
  have hcap := clearIter_capacity st fd k hfd
  have hcnt := clearIter_counter st fd k hfd hctr
  have hfd2 : sock_uuid2fd (fd2uuid st fd) = fd := by
    simp only [sock_uuid2fd, fd2uuid]
    omega
  have hval : validate_uuid (clearIter st fd k) (fd2uuid st fd) = -1 := by
    unfold validate_uuid
    rw [if_pos]
    right
    rw [hfd2, hcnt]
    simp only [fd2uuid]
    omega
  refine ⟨hval, ?_⟩
  intro r e e0
  simp only [sock_read]
  rw [if_pos (Or.inl (by rw [hval]; decide))]

/-- Claim C1 witness: one reinitialization invalidates the old handle and
makes `sock_read` on it fail with `EBADF`. -/
theorem c1_witness :
    validate_uuid (clearIter stC 0 1) (fd2uuid stC 0) = -1 ∧
    sock_read (clearIter stC 0 1) (fd2uuid stC 0) 7 .other .other =
      (-1, Errno.ebadf, clearIter stC 0 1) :=
  ⟨(c1_stale_uuid_invalid_before_wrap stC 0 1 (by decide) (by decide)
      (by decide)).1,
   (c1_stale_uuid_invalid_before_wrap stC 0 1 (by decide) (by decide)
      (by decide)).2 7 .other .other⟩

end Sock
